import Mathlib

/-!
Shallow embedding of the click-routing / placement core of the `level_editor`
repository (`src/main.rs`).  Engine floating-point (`f32`) coordinates are
modelled by exact rationals `ℚ`; the engine's `viewport_to_world_2d`
projection (bevy code, not part of this repository) is an abstract parameter
`proj : Vec2 → Option Vec2`, with `None` standing for projection failure
(`unwrap_or_default` then yields the origin, as in the source).
-/

namespace LevelEditor

/-- A 2D vector (`bevy::Vec2`) with rational components. -/
structure Vec2 where
  x : ℚ
  y : ℚ
deriving DecidableEq, Repr

/-- A 3D vector (`bevy::Vec3`) with rational components. -/
structure Vec3 where
  x : ℚ
  y : ℚ
  z : ℚ
deriving DecidableEq, Repr

/-- `Vec3::xy` / `truncate`: drop the z component. -/
def Vec3.xy (v : Vec3) : Vec2 := ⟨v.x, v.y⟩

/-- `ClickEvent { cursor_pos: Vec2 }` from `src/main.rs`. -/
structure ClickEvent where
  cursor_pos : Vec2
deriving DecidableEq, Repr

/-- The `ClickAnd` tool state enum from `src/main.rs`. -/
inductive ClickAnd where
  | DrawTile
  | DrawHazard
  | DrawMob
  | Erase
  | PlacePlayer
deriving DecidableEq, Repr

/-- The kind of a placed world entity: which marker component
(`Tile(usize)`, `Hazard(usize)`, `Mob`, `Player`) it carries. -/
inductive Kind where
  | tile (idx : ℕ)
  | hazard (idx : ℕ)
  | mob
  | player
deriving DecidableEq, Repr

/-- A Sprite-bearing world entity as spawned by `handle_mouse_click`:
its kind component, its `Transform` translation, and its `Collider`
(`pos: Vec3, size: Vec2`) fields. -/
structure WorldEntity where
  kind : Kind
  transform : Vec3
  colliderPos : Vec3
  colliderSize : Vec2
deriving DecidableEq, Repr

/-- The mutable editor state read and written by `handle_mouse_click`:
the list of Sprite-bearing world entities (in spawn order), the active
tool (`State<ClickAnd>`), and the `SelectedTile` resource. -/
structure EditorState where
  entities : List WorldEntity
  tool : ClickAnd
  selectedTile : ℕ
deriving DecidableEq, Repr

/-- A currently laid-out UI node as seen by `handle_mouse_click`'s
`node_q : Query<(&GlobalTransform, &Node)>`: the node's translation
(its center) and its size. -/
structure UINode where
  center : Vec2
  size : Vec2
deriving DecidableEq, Repr

/-- `check_ui_position` (src/main.rs:123): the axis-aligned bounding box of a
UI node, `(center - size/2, center + size/2)`, componentwise. -/
def check_ui_position (n : UINode) : Vec2 × Vec2 :=
  (⟨n.center.x - n.size.x / 2, n.center.y - n.size.y / 2⟩,
   ⟨n.center.x + n.size.x / 2, n.center.y + n.size.y / 2⟩)

/-- The occlusion test inlined in `handle_mouse_click` (src/main.rs:176-179):
the cursor lies within the node's box, inclusive on all four bounds. -/
def insideNode (n : UINode) (p : Vec2) : Bool :=
  let mm := check_ui_position n
  decide (mm.1.x ≤ p.x) && decide (p.x ≤ mm.2.x) &&
    decide (mm.1.y ≤ p.y) && decide (p.y ≤ mm.2.y)

/-- One axis of the grid snap in `screen_to_world` (src/main.rs:140):
`(world_pos / 24).floor() * 24 + 12` (`size.x = size.y = 24`,
`half_size = 12`). -/
def snap (w : ℚ) : ℚ := ⌊w / 24⌋ * 24 + 12

/-- `screen_to_world` (src/main.rs:132): project the screen position through
the camera (`viewport_to_world_2d`, abstracted as `proj`), defaulting to the
origin on failure, snap each axis to the 24-unit grid with cell-center
offset 12, and extend with `z = 1.0`. -/
def screen_to_world (proj : Vec2 → Option Vec2) (screen_pos : Vec2) : Vec3 :=
  let world_pos := (proj screen_pos).getD ⟨0, 0⟩
  ⟨snap world_pos.x, snap world_pos.y, 1⟩

/-- Tile size used for every spawned entity (`Vec2::splat(24.0)`). -/
def spawnSize : Vec2 := ⟨24, 24⟩

/-- Spawn a Sprite-bearing entity with a `ColliderBundle` whose collider
`pos` and `Transform` translation are both the click position, as every
spawn arm of `handle_mouse_click` does. -/
def mkEntity (k : Kind) (click_pos : Vec3) : WorldEntity :=
  ⟨k, click_pos, click_pos, spawnSize⟩

/-- `transform.translation.xy() == click_pos.xy()` — the erase match
predicate (src/main.rs:247). -/
def eraseMatch (click_pos : Vec3) (e : WorldEntity) : Bool :=
  decide (e.transform.xy = click_pos.xy)

/-- `ent.iter().next()` via `Query<Entity, (With<Player>, Without<Tile>)>`:
whether some already-spawned Player entity exists. -/
def hasPlayer (es : List WorldEntity) : Bool :=
  es.any (fun e => decide (e.kind = Kind.player))

/-- `PlacePlayer` relocation (src/main.rs:253-256): the first Player entity
returned by the query has its `Transform` translation set to the click
position; its `Collider` is untouched. -/
def relocateFirstPlayer (es : List WorldEntity) (click_pos : Vec3) :
    List WorldEntity :=
  match es with
  | [] => []
  | e :: rest =>
    if e.kind = Kind.player then { e with transform := click_pos } :: rest
    else e :: relocateFirstPlayer rest click_pos

/-- The `match state.get()` dispatch of `handle_mouse_click`
(src/main.rs:185-275), applied to one already-projected click position:
`DrawTile` / `DrawHazard` spawn a new entity carrying `selected_tile.0`,
`DrawMob` spawns a Mob, `Erase` despawns every Sprite-bearing entity whose
translation's xy equals the click's, `PlacePlayer` relocates the existing
Player or spawns one. -/
def apply_tool (st : EditorState) (click_pos : Vec3) : EditorState :=
  match st.tool with
  | ClickAnd.DrawTile =>
    { st with entities :=
        st.entities ++ [mkEntity (Kind.tile st.selectedTile) click_pos] }
  | ClickAnd.DrawHazard =>
    { st with entities :=
        st.entities ++ [mkEntity (Kind.hazard st.selectedTile) click_pos] }
  | ClickAnd.DrawMob =>
    { st with entities := st.entities ++ [mkEntity Kind.mob click_pos] }
  | ClickAnd.Erase =>
    { st with entities :=
        st.entities.filter (fun e => !eraseMatch click_pos e) }
  | ClickAnd.PlacePlayer =>
    if hasPlayer st.entities then
      { st with entities := relocateFirstPlayer st.entities click_pos }
    else
      { st with entities := st.entities ++ [mkEntity Kind.player click_pos] }

/-- `handle_mouse_click` (src/main.rs:144): drain the buffered click events
in arrival order.  For each event, first scan every UI node; if the cursor
lies inside any node's box the system `return`s — the current state is kept
and no later event of this batch is processed.  Otherwise the click position
is projected and snapped and the tool dispatch runs. -/
def handle_mouse_click (proj : Vec2 → Option Vec2) (nodes : List UINode)
    (events : List ClickEvent) (st : EditorState) : EditorState :=
  match events with
  | [] => st
  | ev :: rest =>
    if nodes.any (fun n => insideNode n ev.cursor_pos) then st
    else
      handle_mouse_click proj nodes rest
        (apply_tool st (screen_to_world proj ev.cursor_pos))

/-- The slice of `ButtonInput<MouseButton>` state that `detect_inputs` could
consult: whether the left button is currently held (`pressed`) and whether
this tick is the press transition (`just_pressed`).  The source only ever
reads `pressed`. -/
structure MouseState where
  left_pressed : Bool
  left_just_pressed : Bool
deriving DecidableEq, Repr

/-- `detect_inputs` (src/main.rs:110): on every fixed-update tick, if the
left mouse button is held, emit one `ClickEvent` carrying the window's
cursor position, or `Vec2::ZERO` when the cursor position is unavailable. -/
def detect_inputs (mouse : MouseState) (cursor_pos : Option Vec2) :
    List ClickEvent :=
  if mouse.left_pressed then [⟨cursor_pos.getD ⟨0, 0⟩⟩] else []

/-- One fixed-update tick of the click pipeline: `detect_inputs` then
`handle_mouse_click` on the freshly emitted events. -/
def fixed_update_tick (proj : Vec2 → Option Vec2) (nodes : List UINode)
    (mouse : MouseState) (cursor_pos : Option Vec2) (st : EditorState) :
    EditorState :=
  handle_mouse_click proj nodes (detect_inputs mouse cursor_pos) st

/-- Number of Player entities in the world. -/
def countPlayers (es : List WorldEntity) : ℕ :=
  (es.filter (fun e => decide (e.kind = Kind.player))).length

/-- The first Player entity of the world, as `ent.iter().next()` sees it. -/
def findFirstPlayer (es : List WorldEntity) : Option WorldEntity :=
  es.find? (fun e => decide (e.kind = Kind.player))

/-! ### Helper lemmas -/

theorem snap_eval (w : ℚ) (k : ℤ) (h1 : (k : ℚ) ≤ w / 24) (h2 : w / 24 < k + 1) :
    snap w = (k : ℚ) * 24 + 12 := by
  have hf : ⌊w / 24⌋ = k := Int.floor_eq_iff.mpr ⟨h1, h2⟩
  rw [snap, hf]

theorem countPlayers_append (es : List WorldEntity) (e : WorldEntity) :
    countPlayers (es ++ [e]) =
      countPlayers es + (if e.kind = Kind.player then 1 else 0) := by
  by_cases h : e.kind = Kind.player <;>
    simp [countPlayers, List.filter_append, h]

theorem countPlayers_relocate (es : List WorldEntity) (p : Vec3) :
    countPlayers (relocateFirstPlayer es p) = countPlayers es := by
  induction es with
  | nil => rfl
  | cons e rest ih =>
    by_cases h : e.kind = Kind.player
    · simp [relocateFirstPlayer, h, countPlayers, List.filter_cons]
    · simp only [relocateFirstPlayer, if_neg h, countPlayers,
        List.filter_cons] at ih ⊢
      simp [h, ih]

theorem map_colliderPos_relocate (es : List WorldEntity) (p : Vec3) :
    (relocateFirstPlayer es p).map (fun e => e.colliderPos) =
      es.map (fun e => e.colliderPos) := by
  induction es with
  | nil => rfl
  | cons e rest ih =>
    by_cases h : e.kind = Kind.player <;> simp [relocateFirstPlayer, h, ih]

theorem findFirstPlayer_relocate (es : List WorldEntity) (p : Vec3) :
    findFirstPlayer (relocateFirstPlayer es p) =
      (findFirstPlayer es).map (fun e => { e with transform := p }) := by
  induction es with
  | nil => rfl
  | cons e rest ih =>
    by_cases h : e.kind = Kind.player
    · simp [relocateFirstPlayer, h, findFirstPlayer, List.find?_cons_of_pos, h]
    · simpa [relocateFirstPlayer, h, findFirstPlayer,
        List.find?_cons_of_neg, h] using ih

theorem hasPlayer_eq_true_iff (es : List WorldEntity) :
    hasPlayer es = true ↔ 0 < countPlayers es := by
  simp [hasPlayer, countPlayers, List.any_eq_true, List.length_pos,
    List.filter_eq_nil_iff]

theorem findFirstPlayer_of_countPlayers_zero (es : List WorldEntity)
    (h : countPlayers es = 0) : findFirstPlayer es = none := by
  simp [countPlayers, List.length_eq_zero, List.filter_eq_nil_iff] at h
  simp [findFirstPlayer, List.find?_eq_none]
  exact h

/-! ### Claim theorems -/

/-- C8: the grid-snapping function `snap w = ⌊w / 24⌋ * 24 + 12` of
`screen_to_world` is idempotent: `snap (snap w) = snap w` for every world
coordinate `w`. -/
theorem snap_idempotent (w : ℚ) : snap (snap w) = snap w := by
  unfold snap
  have h : (((⌊w / 24⌋ : ℚ) * 24 + 12) / 24 : ℚ) = (⌊w / 24⌋ : ℚ) + 1 / 2 := by
    field_simp
    ring
  rw [h, Int.floor_int_add]
  norm_num

/-- C2: `screen_to_world` snaps the projected world coordinate per axis as
`⌊world_pos / 24⌋ * 24 + 12` and fixes `z = 1.0`; when the
viewport-to-world projection fails it uses the world origin as the pre-snap
coordinate; and a click mapping to world position `(48, 72)` yields the
snapped position `(60, 84)`. -/
theorem screen_to_world_snaps (proj : Vec2 → Option Vec2) (p : Vec2) :
    (∀ w : Vec2, proj p = some w →
      screen_to_world proj p =
        ⟨(⌊w.x / 24⌋ : ℚ) * 24 + 12, (⌊w.y / 24⌋ : ℚ) * 24 + 12, 1⟩) ∧
    (proj p = none → screen_to_world proj p = ⟨snap 0, snap 0, 1⟩) ∧
    (proj p = some ⟨48, 72⟩ → screen_to_world proj p = ⟨60, 84, 1⟩) := by
  refine ⟨?_, ?_, ?_⟩
  · intro w hw
    simp [screen_to_world, hw, snap]
  · intro hw
    simp [screen_to_world, hw]
  · intro hw
    have h48 : snap 48 = 60 := by
      have := snap_eval 48 2 (by norm_num) (by norm_num)
      rw [this]; norm_num
    have h72 : snap 72 = 84 := by
      have := snap_eval 72 3 (by norm_num) (by norm_num)
      rw [this]; norm_num
    simp [screen_to_world, hw, h48, h72]

/-- C2 witness: concrete instances of the projection-success and
projection-failure cases of `screen_to_world_snaps`. -/
theorem screen_to_world_snaps_witness :
    screen_to_world (fun _ => some ⟨48, 72⟩) ⟨5, 5⟩ = ⟨60, 84, 1⟩ ∧
    screen_to_world (fun _ => none) ⟨5, 5⟩ = ⟨snap 0, snap 0, 1⟩ :=
  ⟨(screen_to_world_snaps (fun _ => some ⟨48, 72⟩) ⟨5, 5⟩).2.2 rfl,
   (screen_to_world_snaps (fun _ => none) ⟨5, 5⟩).2.1 rfl⟩

/-- C1: a click whose screen coordinate lies inside the axis-aligned
bounding box (center minus half-size to center plus half-size, inclusive
bounds) of any currently laid-out UI node produces no world mutation:
`handle_mouse_click` leaves the state untouched, so no tile, hazard or mob
is spawned, no entity is erased, and the player is neither created nor
moved. -/
theorem ui_occluded_click_is_discarded (proj : Vec2 → Option Vec2)
    (nodes : List UINode) (ev : ClickEvent) (rest : List ClickEvent)
    (st : EditorState) (n : UINode) (hn : n ∈ nodes)
    (hx1 : (check_ui_position n).1.x ≤ ev.cursor_pos.x)
    (hx2 : ev.cursor_pos.x ≤ (check_ui_position n).2.x)
    (hy1 : (check_ui_position n).1.y ≤ ev.cursor_pos.y)
    (hy2 : ev.cursor_pos.y ≤ (check_ui_position n).2.y) :
    handle_mouse_click proj nodes (ev :: rest) st = st := by
  have hin : insideNode n ev.cursor_pos = true := by
    simp [insideNode]
    exact ⟨⟨⟨hx1, hx2⟩, hy1⟩, hy2⟩
  have hany : nodes.any (fun m => insideNode m ev.cursor_pos) = true :=
    List.any_eq_true.mpr ⟨n, hn, hin⟩
  simp [handle_mouse_click, hany]

/-- C1 witness: a click at (10, 10) inside a 100×100 node centered at the
origin leaves a concrete editor state untouched. -/
theorem ui_occluded_click_is_discarded_witness :
    handle_mouse_click (fun q => some q) [⟨⟨0, 0⟩, ⟨100, 100⟩⟩]
      [⟨⟨10, 10⟩⟩] ⟨[], ClickAnd.DrawTile, 3⟩ = ⟨[], ClickAnd.DrawTile, 3⟩ :=
  ui_occluded_click_is_discarded (fun q => some q) [⟨⟨0, 0⟩, ⟨100, 100⟩⟩]
    ⟨⟨10, 10⟩⟩ [] ⟨[], ClickAnd.DrawTile, 3⟩ ⟨⟨0, 0⟩, ⟨100, 100⟩⟩
    (List.mem_singleton.mpr rfl)
    (by norm_num [check_ui_position]) (by norm_num [check_ui_position])
    (by norm_num [check_ui_position]) (by norm_num [check_ui_position])

/-- C3 counterexample: two clicks are buffered in the same frame; the first
lies inside a 100×100 UI node centered at the origin, the second at
(200, 200) lies outside it.  Draining the batch leaves the state untouched
— the non-occluded second click completes no effect — although that second
click alone would have placed one tile.  The occluded click's discard does
prevent the remaining buffered click from completing. -/
theorem occluded_click_blocks_rest_counterexample :
    handle_mouse_click (fun q => some q) [⟨⟨0, 0⟩, ⟨100, 100⟩⟩]
        [⟨⟨10, 10⟩⟩, ⟨⟨200, 200⟩⟩] ⟨[], ClickAnd.DrawTile, 5⟩ =
      ⟨[], ClickAnd.DrawTile, 5⟩ ∧
    (handle_mouse_click (fun q => some q) [⟨⟨0, 0⟩, ⟨100, 100⟩⟩]
        [⟨⟨200, 200⟩⟩] ⟨[], ClickAnd.DrawTile, 5⟩).entities.length = 1 := by
  have h1 : ([⟨⟨0, 0⟩, ⟨100, 100⟩⟩] : List UINode).any
      (fun n => insideNode n ⟨10, 10⟩) = true := by
    norm_num [insideNode, check_ui_position]
  have h2 : ([⟨⟨0, 0⟩, ⟨100, 100⟩⟩] : List UINode).any
      (fun n => insideNode n ⟨200, 200⟩) = false := by
    norm_num [insideNode, check_ui_position]
  constructor
  · simp [handle_mouse_click, h1]
  · simp [handle_mouse_click, h2, apply_tool]

/-- C3 (amended): buffered clicks are drained in arrival (FIFO) order and a
non-occluded click completes its effect within the frame, but when a click
is occluded the handler returns immediately, discarding that click and all
remaining buffered clicks of the frame. -/
theorem handle_mouse_click_fifo_early_return (proj : Vec2 → Option Vec2)
    (nodes : List UINode) (ev : ClickEvent) (rest : List ClickEvent)
    (st : EditorState) :
    (nodes.any (fun n => insideNode n ev.cursor_pos) = false →
      handle_mouse_click proj nodes (ev :: rest) st =
        handle_mouse_click proj nodes rest
          (apply_tool st (screen_to_world proj ev.cursor_pos))) ∧
    (nodes.any (fun n => insideNode n ev.cursor_pos) = true →
      handle_mouse_click proj nodes (ev :: rest) st = st) := by
  constructor
  · intro h
    simp [handle_mouse_click, h]
  · intro h
    simp [handle_mouse_click, h]

/-- C3 witness: concrete instances of both arms of
`handle_mouse_click_fifo_early_return`: with no UI nodes, the head click is
processed first and in place; with a node covering (1, 2), the batch is
dropped whole. -/
theorem handle_mouse_click_fifo_early_return_witness :
    (handle_mouse_click (fun q => some q) [] [⟨⟨1, 2⟩⟩, ⟨⟨3, 4⟩⟩]
        ⟨[], ClickAnd.DrawMob, 0⟩ =
      handle_mouse_click (fun q => some q) [] [⟨⟨3, 4⟩⟩]
        (apply_tool ⟨[], ClickAnd.DrawMob, 0⟩
          (screen_to_world (fun q => some q) ⟨1, 2⟩))) ∧
    handle_mouse_click (fun q => some q) [⟨⟨0, 0⟩, ⟨10, 10⟩⟩]
        [⟨⟨1, 2⟩⟩, ⟨⟨3, 4⟩⟩] ⟨[], ClickAnd.DrawMob, 0⟩ =
      ⟨[], ClickAnd.DrawMob, 0⟩ :=
  ⟨(handle_mouse_click_fifo_early_return (fun q => some q) [] ⟨⟨1, 2⟩⟩
      [⟨⟨3, 4⟩⟩] ⟨[], ClickAnd.DrawMob, 0⟩).1 rfl,
   (handle_mouse_click_fifo_early_return (fun q => some q)
      [⟨⟨0, 0⟩, ⟨10, 10⟩⟩] ⟨⟨1, 2⟩⟩ [⟨⟨3, 4⟩⟩] ⟨[], ClickAnd.DrawMob, 0⟩).2
      (by norm_num [insideNode, check_ui_position])⟩

/-- C4: with the Erase tool, a click removes every Sprite-bearing world
entity whose translation's x and y exactly equal the snapped click
position's, not just the first match; in particular a Tile and a Hazard
both at (60, 84) are both removed by one erase click there. -/
theorem erase_removes_all_matching (es : List WorldEntity) (sel : ℕ)
    (p : Vec3) :
    (apply_tool ⟨es, ClickAnd.Erase, sel⟩ p).entities =
      es.filter
        (fun e => !decide (e.transform.x = p.x ∧ e.transform.y = p.y)) ∧
    (apply_tool
        ⟨[mkEntity (Kind.tile 3) ⟨60, 84, 1⟩,
          mkEntity (Kind.hazard 7) ⟨60, 84, 1⟩],
         ClickAnd.Erase, 0⟩ ⟨60, 84, 1⟩).entities = [] := by
  constructor
  · simp only [apply_tool]
    apply List.filter_congr
    intro e _
    simp [eraseMatch, Vec3.xy, Vec2.mk.injEq]
  · simp [apply_tool, eraseMatch, Vec3.xy, mkEntity]

/-- C7: with the Erase tool, a click at a snapped position where no
Sprite-bearing entity is located leaves the whole editor state — entity
list, tool, selected tile index — unchanged (in the embedding `apply_tool`
is total, so it cannot panic). -/
theorem erase_on_empty_cell_noop (es : List WorldEntity) (sel : ℕ)
    (p : Vec3) (h : ∀ e ∈ es, e.transform.xy ≠ p.xy) :
    apply_tool ⟨es, ClickAnd.Erase, sel⟩ p = ⟨es, ClickAnd.Erase, sel⟩ := by
  simp only [apply_tool, EditorState.mk.injEq, and_true]
  apply List.filter_eq_self.mpr
  intro e he
  simp [eraseMatch]
  exact h e he

/-- C7 witness: erasing at (36, 36) in a world holding a single tile at
(12, 12) changes nothing. -/
theorem erase_on_empty_cell_noop_witness :
    apply_tool ⟨[mkEntity (Kind.tile 1) ⟨12, 12, 1⟩], ClickAnd.Erase, 4⟩
        ⟨36, 36, 1⟩ =
      ⟨[mkEntity (Kind.tile 1) ⟨12, 12, 1⟩], ClickAnd.Erase, 4⟩ :=
  erase_on_empty_cell_noop [mkEntity (Kind.tile 1) ⟨12, 12, 1⟩] 4 ⟨36, 36, 1⟩
    (by norm_num [mkEntity, Vec3.xy, Vec2.mk.injEq])

theorem findFirstPlayer_append_player (es : List WorldEntity)
    (e : WorldEntity) (h : countPlayers es = 0) (he : e.kind = Kind.player) :
    findFirstPlayer (es ++ [e]) = some e := by
  have hnone : findFirstPlayer es = none :=
    findFirstPlayer_of_countPlayers_zero es h
  simp only [findFirstPlayer, List.find?_append] at hnone ⊢
  rw [hnone]
  simp [List.find?, he]

/-- C6: with DrawTile or DrawHazard active, a non-occluded click always
appends a brand-new WorldObject of that kind at the snapped position
carrying the selected tile index, with no deduplication: two clicks on the
same cell accumulate two overlapping objects. -/
theorem draw_appends_new_object (proj : Vec2 → Option Vec2)
    (nodes : List UINode) (ev : ClickEvent) (es : List WorldEntity) (sel : ℕ)
    (h : nodes.any (fun n => insideNode n ev.cursor_pos) = false) :
    (handle_mouse_click proj nodes [ev]
        ⟨es, ClickAnd.DrawTile, sel⟩).entities =
      es ++ [mkEntity (Kind.tile sel) (screen_to_world proj ev.cursor_pos)] ∧
    (handle_mouse_click proj nodes [ev]
        ⟨es, ClickAnd.DrawHazard, sel⟩).entities =
      es ++
        [mkEntity (Kind.hazard sel) (screen_to_world proj ev.cursor_pos)] ∧
    (handle_mouse_click proj nodes [ev, ev]
        ⟨es, ClickAnd.DrawTile, sel⟩).entities =
      es ++
        [mkEntity (Kind.tile sel) (screen_to_world proj ev.cursor_pos),
         mkEntity (Kind.tile sel) (screen_to_world proj ev.cursor_pos)] := by
  refine ⟨?_, ?_, ?_⟩ <;> simp [handle_mouse_click, h, apply_tool]

/-- C6 witness: one DrawTile click with no UI nodes appends exactly the new
tile entity to an empty world. -/
theorem draw_appends_new_object_witness :
    (handle_mouse_click (fun _ => none) [] [⟨⟨7, 8⟩⟩]
        ⟨[], ClickAnd.DrawTile, 2⟩).entities =
      [] ++ [mkEntity (Kind.tile 2) (screen_to_world (fun _ => none) ⟨7, 8⟩)] :=
  (draw_appends_new_object (fun _ => none) [] ⟨⟨7, 8⟩⟩ [] 2 rfl).1

/-- C5: at most one Player exists: a PlacePlayer click yields
`max (countPlayers es) 1` players (creating one only when none exists,
otherwise relocating), and two PlacePlayer clicks at different positions
starting from a player-free world leave exactly one Player, located at the
second position. -/
theorem place_player_at_most_one (es : List WorldEntity) (sel : ℕ)
    (p₁ p₂ : Vec3) (h0 : countPlayers es = 0) (hne : p₁ ≠ p₂) :
    (∀ (es' : List WorldEntity) (q : Vec3),
      countPlayers
          ((apply_tool ⟨es', ClickAnd.PlacePlayer, sel⟩ q).entities) =
        max (countPlayers es') 1) ∧
    countPlayers
        ((apply_tool
            ⟨(apply_tool ⟨es, ClickAnd.PlacePlayer, sel⟩ p₁).entities,
             ClickAnd.PlacePlayer, sel⟩ p₂).entities) = 1 ∧
    (findFirstPlayer
        ((apply_tool
            ⟨(apply_tool ⟨es, ClickAnd.PlacePlayer, sel⟩ p₁).entities,
             ClickAnd.PlacePlayer, sel⟩ p₂).entities)).map
        (fun e => e.transform) = some p₂ := by
  have hgen : ∀ (es' : List WorldEntity) (q : Vec3),
      countPlayers
          ((apply_tool ⟨es', ClickAnd.PlacePlayer, sel⟩ q).entities) =
        max (countPlayers es') 1 := by
    intro es' q
    cases hhp : hasPlayer es' with
    | true =>
      have h1 : 0 < countPlayers es' := (hasPlayer_eq_true_iff es').mp hhp
      simp only [apply_tool, hhp, if_true]
      rw [countPlayers_relocate]
      omega
    | false =>
      have h0' : countPlayers es' = 0 := by
        by_contra hc
        rw [(hasPlayer_eq_true_iff es').mpr (Nat.pos_of_ne_zero hc)] at hhp
        exact Bool.noConfusion hhp
      simp only [apply_tool, hhp, Bool.false_eq_true, if_false]
      rw [countPlayers_append, h0']
      simp [mkEntity]
  have hhp0 : hasPlayer es = false := by
    cases hhp : hasPlayer es with
    | true =>
      have := (hasPlayer_eq_true_iff es).mp hhp
      omega
    | false => rfl
  have hstep1 : (apply_tool ⟨es, ClickAnd.PlacePlayer, sel⟩ p₁).entities =
      es ++ [mkEntity Kind.player p₁] := by
    simp [apply_tool, hhp0]
  have hc1 : countPlayers (es ++ [mkEntity Kind.player p₁]) = 1 := by
    rw [countPlayers_append, h0]
    simp [mkEntity]
  refine ⟨hgen, ?_, ?_⟩
  · rw [hstep1, hgen, hc1]
    omega
  · have hhp1 : hasPlayer (es ++ [mkEntity Kind.player p₁]) = true :=
      (hasPlayer_eq_true_iff _).mpr (by rw [hc1]; omega)
    rw [hstep1]
    simp only [apply_tool, hhp1, if_true]
    rw [findFirstPlayer_relocate,
      findFirstPlayer_append_player es (mkEntity Kind.player p₁) h0 rfl]
    simp

/-- C5 witness: starting from an empty world, placing the player at
(12, 12, 1) and then at (36, 12, 1) leaves exactly one Player, at the
second position. -/
theorem place_player_at_most_one_witness :
    countPlayers
        ((apply_tool
            ⟨(apply_tool ⟨[], ClickAnd.PlacePlayer, 0⟩ ⟨12, 12, 1⟩).entities,
             ClickAnd.PlacePlayer, 0⟩ ⟨36, 12, 1⟩).entities) = 1 ∧
    (findFirstPlayer
        ((apply_tool
            ⟨(apply_tool ⟨[], ClickAnd.PlacePlayer, 0⟩ ⟨12, 12, 1⟩).entities,
             ClickAnd.PlacePlayer, 0⟩ ⟨36, 12, 1⟩).entities)).map
        (fun e => e.transform) = some ⟨36, 12, 1⟩ :=
  ⟨(place_player_at_most_one [] 0 ⟨12, 12, 1⟩ ⟨36, 12, 1⟩ rfl
      (by norm_num [Vec3.mk.injEq])).2.1,
   (place_player_at_most_one [] 0 ⟨12, 12, 1⟩ ⟨36, 12, 1⟩ rfl
      (by norm_num [Vec3.mk.injEq])).2.2⟩

/-- C9: when PlacePlayer relocates an existing Player, only the Player's
`Transform` translation is set to the click position; every entity's
`Collider` `pos` field — the Player's included — retains its value from the
original placement. -/
theorem relocate_preserves_collider_pos (es : List WorldEntity) (sel : ℕ)
    (p : Vec3) (h : hasPlayer es = true) :
    ((apply_tool ⟨es, ClickAnd.PlacePlayer, sel⟩ p).entities).map
        (fun e => e.colliderPos) = es.map (fun e => e.colliderPos) ∧
    findFirstPlayer
        ((apply_tool ⟨es, ClickAnd.PlacePlayer, sel⟩ p).entities) =
      (findFirstPlayer es).map (fun e => { e with transform := p }) := by
  simp only [apply_tool, h, if_true]
  exact ⟨map_colliderPos_relocate es p, findFirstPlayer_relocate es p⟩

/-- C9 witness: relocating the single Player placed at (12, 12, 1) to
(36, 60, 1) leaves its collider position list unchanged. -/
theorem relocate_preserves_collider_pos_witness :
    ((apply_tool ⟨[mkEntity Kind.player ⟨12, 12, 1⟩],
        ClickAnd.PlacePlayer, 0⟩ ⟨36, 60, 1⟩).entities).map
      (fun e => e.colliderPos) =
      [mkEntity Kind.player ⟨12, 12, 1⟩].map (fun e => e.colliderPos) :=
  (relocate_preserves_collider_pos [mkEntity Kind.player ⟨12, 12, 1⟩] 0
    ⟨36, 60, 1⟩ rfl).1

/-- C10: a click event is emitted on every fixed-update tick for as long as
the left mouse button is held (`pressed`, not only the `just_pressed`
transition, which the theorem leaves unconstrained); when the cursor
position is unavailable the event carries screen position (0, 0); and a
held button over a non-occluded position yields one placement per tick. -/
theorem detect_inputs_every_tick_while_pressed (mouse : MouseState)
    (cursor_pos : Option Vec2) (proj : Vec2 → Option Vec2)
    (nodes : List UINode) (es : List WorldEntity) (sel : ℕ)
    (hp : mouse.left_pressed = true)
    (hocc : nodes.any (fun n => insideNode n (cursor_pos.getD ⟨0, 0⟩)) =
      false) :
    detect_inputs mouse cursor_pos = [⟨cursor_pos.getD ⟨0, 0⟩⟩] ∧
    (cursor_pos = none → detect_inputs mouse cursor_pos = [⟨⟨0, 0⟩⟩]) ∧
    (fixed_update_tick proj nodes mouse cursor_pos
        ⟨es, ClickAnd.DrawTile, sel⟩).entities.length = es.length + 1 := by
  refine ⟨?_, ?_, ?_⟩
  · simp [detect_inputs, hp]
  · intro hc
    simp [detect_inputs, hp, hc]
  · simp [fixed_update_tick, detect_inputs, hp, handle_mouse_click, hocc,
      apply_tool]

/-- C10 witness: with the button held but not freshly pressed, no cursor
position available and no UI nodes, one tick places exactly one object. -/
theorem detect_inputs_every_tick_while_pressed_witness :
    (fixed_update_tick (fun _ => none) [] ⟨true, false⟩ none
        ⟨[], ClickAnd.DrawTile, 0⟩).entities.length = 0 + 1 :=
  (detect_inputs_every_tick_while_pressed ⟨true, false⟩ none (fun _ => none)
    [] [] 0 rfl rfl).2.2

end LevelEditor
